import Mathlib

set_option linter.unusedVariables false

/-!
Shallow embedding of the glirc OTR extension (src/otr-extension/glirc-otr.c).

C strings (`glirc_string`, NUL-terminated buffers) are modelled as `List Char`.
The external OTR engine (libotr) and the host client (glirc) are outside the
repository: engine calls are modelled as oracle function parameters, and the
side effects of each entrypoint are recorded in an explicit event trace in the
order the C code performs them, including `malloc`/`free`-level allocation
events for `strdup`ed strings and engine-allocated buffers.
-/

/-- C strings are modelled as lists of characters (no embedded NUL). -/
abbrev Str := List Char

/-- The glirc API type `enum process_result`. -/
inductive ProcessResult
  | DROP_MESSAGE
  | PASS_MESSAGE
  deriving DecidableEq, Repr

/-- Message code of the glirc API used by `glirc_print`; only `ERROR_MESSAGE`
is used by this extension. -/
inductive MessageCode
  | NORMAL_MESSAGE
  | ERROR_MESSAGE
  deriving DecidableEq, Repr

/-- Kinds of heap buffers allocated and released by the extension:
the four `import_string` copies in `message_entrypoint`, the three copies plus
the `glirc_my_nick` result in `chat_entrypoint`, and the engine-allocated
decryption output and TLV chain. -/
inductive BufKind
  | sender
  | target
  | message
  | net
  | me
  | newmessage
  | tlvs
  deriving DecidableEq, Repr

/-- One observable step performed by an entrypoint: a host-API call, a call
into the OTR engine, or an allocation/release of a heap buffer. -/
inductive Event
  | glirc_send_message (network : Str) (command : Str) (params : List Str)
  | glirc_print (code : MessageCode) (text : Str)
  | glirc_inject_chat (network source target text : Str)
  | engine_receiving (accountname protocol sender message : Str)
  | engine_sending (accountname protocol recipient message : Str)
  | alloc (kind : BufKind)
  | free (kind : BufKind)
  deriving DecidableEq, Repr

/-- The string literal `"PRIVMSG"`. -/
def privmsgCmd : Str := ['P', 'R', 'I', 'V', 'M', 'S', 'G']

/-- The error text printed by `chat_entrypoint` on a send-path error. -/
def errTxt : Str :=
  ['P', 'A', 'N', 'I', 'C', ':', ' ', 'O', 'T', 'R', ' ',
   'e', 'n', 'c', 'r', 'y', 'p', 't', 'i', 'o', 'n', ' ',
   'e', 'r', 'r', 'o', 'r']

/-- The hard-coded account name `"glguy"` in `start_entrypoint`. -/
def glguyStr : Str := ['g', 'l', 'g', 'u', 'y']

/-- The hard-coded protocol name `"elis.local"` in `start_entrypoint`. -/
def elisStr : Str := ['e', 'l', 'i', 's', '.', 'l', 'o', 'c', 'a', 'l']

/-- The fixed file name `"/keyfile"` appended in `start_entrypoint`. -/
def keyfileSuffix : Str := ['/', 'k', 'e', 'y', 'f', 'i', 'l', 'e']

/-- The newline-scrubbing loop of `op_inject`: every `'\n'` byte of the copied
buffer is overwritten with `' '`; all other bytes are untouched. -/
def scrubNewlines (s : Str) : Str :=
  s.map fun c => if c == '\n' then ' ' else c

/-- Result of `op_inject`: the host calls it makes, and the `message` buffer
of the caller as it stands after the call (the C code edits a `strdup` copy,
never the buffer of the caller). -/
structure InjectOut where
  events : List Event
  callerBuffer : Str
  deriving DecidableEq, Repr

/-- Embedding of `op_inject`: copies `message`, replaces each newline of the copy with a
space, and hands the copy to `glirc_send_message` as a `PRIVMSG` with the two
parameters `recipient` and the scrubbed text, on network `protocol`. -/
def op_inject (accountname protocol recipient message : Str) : InjectOut :=
  let message1 := scrubNewlines message
  { events := [Event.glirc_send_message protocol privmsgCmd [recipient, message1]],
    callerBuffer := message }

/-- Stand-in for the opaque `struct glirc *` handle of the host. -/
structure Glirc where
  token : Nat
  deriving DecidableEq, Repr

/-- Stand-in for the opaque `ConnContext` type of libotr. -/
structure ConnContext where
  token : Nat
  deriving DecidableEq, Repr

/-- Embedding of `op_max_message`: returns the fixed fragment-size budget 400 regardless of
its arguments. -/
def op_max_message (opdata : Glirc) (context : ConnContext) : Int := 400

/-- A received IRC message as handed to `process_message`: the fields of
`struct glirc_message` that `message_entrypoint` reads. `params` carries
`params_n` entries. -/
structure GlircMessage where
  network : Str
  prefix_nick : Str
  command : Str
  params : List Str
  deriving DecidableEq, Repr

/-- An outgoing chat event as handed to `process_chat`: the fields of
`struct glirc_chat`. -/
structure GlircChat where
  network : Str
  target : Str
  message : Str
  deriving DecidableEq, Repr

/-- Output of the libotr call `otrl_message_receiving`: the `int` return value
(the "drop" flag), the possibly-allocated decrypted plaintext `*newmessagep`,
and whether a TLV chain was allocated into `*tlvsp`. -/
structure RecvOut where
  drop : Int
  newmessage : Option Str
  tlvs : Bool
  deriving DecidableEq, Repr

/-- Output of the libotr call `otrl_message_sending`: the `gcry_error_t` return value
and the possibly-allocated replacement text `*messagep`. -/
structure SendOut where
  err : Int
  newmsg : Option Str
  deriving DecidableEq, Repr

/-- Receive path of the engine as an oracle: arguments in the order
`message_entrypoint` passes them (`accountname`, `protocol`, `sender`,
`message`). -/
abbrev RecvFun := Str → Str → Str → Str → RecvOut

/-- Send path of the engine as an oracle: arguments in the order
`chat_entrypoint` passes them (`accountname`, `protocol`, `recipient`,
`message`). -/
abbrev SendFun := Str → Str → Str → Str → SendOut

/-- The command test of `message_entrypoint`:
`0 == strncmp("PRIVMSG", msg->command.str, msg->command.len)`.
`strncmp` compares at most `command.len` bytes and stops at the NUL of the
literal, so it returns 0 exactly when the received command is a byte-prefix
of `"PRIVMSG"` (this includes `""`, `"P"`, ..., `"PRIVMSG"`). -/
def strncmpPrivmsgEq (cmd : Str) (lit : Str) : Bool :=
  match cmd, lit with
  | [], _ => true
  | _ :: _, [] => false
  | c :: cs, l :: ls => c == l && strncmpPrivmsgEq cs ls

/-- The full guard of the OTR branch in `message_entrypoint`: the command bytes
pass the `strncmp` test against `"PRIVMSG"` and `params_n == 2`. -/
def privmsgGuard (msg : GlircMessage) : Bool :=
  strncmpPrivmsgEq msg.command privmsgCmd && msg.params.length == 2

/-- The arguments `message_entrypoint` feeds to `otrl_message_receiving`:
`target` as the account name, the network as the protocol, the prefix nick as
the sender, and `params[1]` as the message. -/
def recvOutput (recv : RecvFun) (msg : GlircMessage) : RecvOut :=
  recv (msg.params.headD []) msg.network msg.prefix_nick
    ((msg.params.drop 1).headD [])

/-- Embedding of `message_entrypoint` (`process_message`): on a message passing the
`PRIVMSG` guard, `strdup`s sender/target/message/network, calls
`otrl_message_receiving`, injects any produced plaintext as a chat line from
the original sender, releases the TLV chain, the plaintext buffer and the
four string copies, and returns `DROP_MESSAGE` iff a plaintext was produced
or the engine drop flag is nonzero; any other message is passed through
with no effect. -/
def message_entrypoint (recv : RecvFun) (msg : GlircMessage) :
    ProcessResult × List Event :=
  if privmsgGuard msg then
    let sender := msg.prefix_nick
    let target := msg.params.headD []
    let message := (msg.params.drop 1).headD []
    let net := msg.network
    let out := recvOutput recv msg
    let allocEvs : List Event :=
      [Event.alloc .sender, Event.alloc .target,
       Event.alloc .message, Event.alloc .net]
    let engineEvs : List Event :=
      [Event.engine_receiving target net sender message]
        ++ (if out.newmessage.isSome then [Event.alloc .newmessage] else [])
        ++ (if out.tlvs then [Event.alloc .tlvs] else [])
    let injectEvs : List Event :=
      match out.newmessage with
      | some p => [Event.glirc_inject_chat net sender sender p]
      | none => []
    let freeEvs : List Event :=
      (if out.tlvs then [Event.free .tlvs] else [])
        ++ (if out.newmessage.isSome then [Event.free .newmessage] else [])
        ++ [Event.free .sender, Event.free .target,
            Event.free .message, Event.free .net]
    ((if out.newmessage.isSome || out.drop != 0 then
        ProcessResult.DROP_MESSAGE
      else ProcessResult.PASS_MESSAGE),
     allocEvs ++ engineEvs ++ injectEvs ++ freeEvs)
  else
    (ProcessResult.PASS_MESSAGE, [])

/-- The arguments `chat_entrypoint` feeds to `otrl_message_sending`: the local
nick as the account name, the network as the protocol, the chat target as the
recipient, and the chat text as the message. -/
def sendOutput (send : SendFun) (me : Str) (chat : GlircChat) : SendOut :=
  send me chat.network chat.target chat.message

/-- Embedding of `chat_entrypoint` (`process_chat`): `strdup`s network/target/message,
fetches the local nick (`glirc_my_nick`, modelled as the `me` argument),
calls `otrl_message_sending`, frees the copies, then: a replacement payload
means the engine handled delivery, so free it and `DROP_MESSAGE`; a nonzero
error code prints the fixed encryption-error text and gives `DROP_MESSAGE`;
otherwise `PASS_MESSAGE`. -/
def chat_entrypoint (send : SendFun) (me : Str) (chat : GlircChat) :
    ProcessResult × List Event :=
  let out := sendOutput send me chat
  let pre : List Event :=
    [Event.alloc .net, Event.alloc .target,
     Event.alloc .message, Event.alloc .me,
     Event.engine_sending me chat.network chat.target chat.message]
      ++ (if out.newmsg.isSome then [Event.alloc .newmessage] else [])
      ++ [Event.free .message, Event.free .target,
          Event.free .net, Event.free .me]
  match out.newmsg with
  | some _ =>
      (ProcessResult.DROP_MESSAGE, pre ++ [Event.free .newmessage])
  | none =>
      if out.err != 0 then
        (ProcessResult.DROP_MESSAGE,
         pre ++ [Event.glirc_print MessageCode.ERROR_MESSAGE errTxt])
      else
        (ProcessResult.PASS_MESSAGE, pre)

/-- Drop trailing `'/'` characters, as `dirname` does. -/
def dropTrailingSlashes (s : Str) : Str :=
  (s.reverse.dropWhile (fun c => c == '/')).reverse

/-- POSIX `dirname` (the `dirname_r` call of `start_entrypoint`): strip
trailing slashes, remove the last path component, strip trailing slashes
again; a path with no remaining component yields `"/"` when absolute and
`"."` otherwise. -/
def dirname (path : Str) : Str :=
  let s1 := dropTrailingSlashes path
  if s1.isEmpty then
    if path.headD ' ' == '/' then ['/'] else ['.']
  else
    let s2 := (s1.reverse.dropWhile (fun c => c != '/')).reverse
    let s3 := dropTrailingSlashes s2
    if s3.isEmpty then
      if s2.headD ' ' == '/' then ['/'] else ['.']
    else s3

/-- Stand-in for the opaque `OtrlUserState` type of libotr. -/
structure UserState where
  token : Nat
  deriving DecidableEq, Repr

/-- Embedding of `otrl_userstate_create`: produces a fresh user state. -/
def otrl_userstate_create : UserState := ⟨0⟩

/-- One observable step of `start_entrypoint`. -/
inductive StartEvent
  | otrl_init
  | userstate_create
  | privkey_read (keyfile : Str)
  | privkey_generate (keyfile accountname protocol : Str)
  deriving DecidableEq, Repr

/-- Result of `start_entrypoint`: the handle returned to the host (`none`
would mean startup aborted; the C code always returns the user state) and the
trace of engine calls. -/
structure StartOut where
  handle : Option UserState
  events : List StartEvent
  deriving DecidableEq, Repr

/-- Embedding of `start_entrypoint`: builds `keyfile` as `dirname(path)` + `"/keyfile"`,
runs `OTRL_INIT`, creates a user state, calls `otrl_privkey_generate` with the
hard-coded `"glguy"` / `"elis.local"` strings, and returns the user state.
The `keyExists` and `genResult` parameters model the environment — whether a
key file already exists at `keyfile`, and the `gcry_error_t` that
`otrl_privkey_generate` returns (nonzero when the path is unwritable): the C
code consults neither, never calls `otrl_privkey_read`, and discards the
generation result. -/
def start_entrypoint (path : Str) (keyExists : Bool) (genResult : Int) :
    StartOut :=
  let keyfile := dirname path ++ keyfileSuffix
  { handle := some otrl_userstate_create,
    events := [StartEvent.otrl_init, StartEvent.userstate_create,
               StartEvent.privkey_generate keyfile glguyStr elisStr] }

/-- Embedding of `stop_entrypoint`: releases the user state; the handle is unusable
afterwards. -/
def stop_entrypoint (L : UserState) : Option UserState := none

/-- Tests whether an event is a call into the engine receive path. -/
def isEngineRecvEvent : Event → Bool
  | .engine_receiving _ _ _ _ => true
  | _ => false

/-- Number of engine receive calls recorded in a trace. -/
def engineRecvCount (t : List Event) : Nat := t.countP isEngineRecvEvent

/-- Tests whether an event is a `glirc_inject_chat` host call. -/
def isInjectChatEvent : Event → Bool
  | .glirc_inject_chat _ _ _ _ => true
  | _ => false

/-- Number of `glirc_inject_chat` host calls recorded in a trace. -/
def injectChatCount (t : List Event) : Nat := t.countP isInjectChatEvent

/-- Tests whether an event is the fixed encryption-error notification:
`glirc_print` at `ERROR_MESSAGE` level with the `"PANIC: OTR encryption
error"` text. -/
def isErrNotifEvent : Event → Bool
  | .glirc_print MessageCode.ERROR_MESSAGE s => s == errTxt
  | _ => false

/-- Number of encryption-error notifications recorded in a trace. -/
def errNotifCount (t : List Event) : Nat := t.countP isErrNotifEvent

/-- Tests whether an event is a `glirc_send_message` host call. -/
def isHostSendEvent : Event → Bool
  | .glirc_send_message _ _ _ => true
  | _ => false

/-- Number of `glirc_send_message` host calls recorded in a trace. -/
def hostSendCount (t : List Event) : Nat := t.countP isHostSendEvent

/-- Tests whether an event is any `glirc_print` host call. -/
def isPrintEvent : Event → Bool
  | .glirc_print _ _ => true
  | _ => false

/-- Number of `glirc_print` host calls recorded in a trace. -/
def printCount (t : List Event) : Nat := t.countP isPrintEvent

/-- Tests whether an event allocates a buffer of kind `k`. -/
def isAllocOf (k : BufKind) : Event → Bool
  | .alloc k2 => k2 == k
  | _ => false

/-- Tests whether an event releases a buffer of kind `k`. -/
def isFreeOf (k : BufKind) : Event → Bool
  | .free k2 => k2 == k
  | _ => false

/-- Number of allocations of kind `k` recorded in a trace. -/
def allocCount (t : List Event) (k : BufKind) : Nat := t.countP (isAllocOf k)

/-- Number of releases of kind `k` recorded in a trace. -/
def freeCount (t : List Event) (k : BufKind) : Nat := t.countP (isFreeOf k)

/-- Concatenated trace of processing a sequence of inbound messages, each
with the engine behaviour in force for that message. -/
def processInbound (inputs : List (RecvFun × GlircMessage)) : List Event :=
  inputs.foldr (fun i acc => (message_entrypoint i.1 i.2).2 ++ acc) []

/-- Tests whether a start event is a key-generation call. -/
def isGenerateEvent : StartEvent → Bool
  | .privkey_generate _ _ _ => true
  | _ => false

/-- Tests whether a start event is a key-load (`otrl_privkey_read`) call. -/
def isReadEvent : StartEvent → Bool
  | .privkey_read _ => true
  | _ => false

/-- Newline count of a buffer; the line count of a buffer on a line-oriented
transport is this plus one. -/
def countNewlines (s : Str) : Nat := s.countP (fun c => c == '\n')

/-- Engine receive oracle reporting an ordinary non-OTR message: no
plaintext, no TLV chain, drop flag 0. -/
def recvNone : RecvFun := fun _ _ _ _ => ⟨0, none, false⟩

/-- Engine receive oracle reporting a successful decryption: plaintext
`"hi"`, a TLV chain, drop flag 0. -/
def recvPlain : RecvFun := fun _ _ _ _ => ⟨0, some ['h', 'i'], true⟩

/-- Engine send oracle reporting error code 1 together with a replacement
payload. -/
def sendErrReplace : SendFun := fun _ _ _ _ => ⟨1, some ['x']⟩

/-- Engine send oracle reporting error code 1 and no replacement. -/
def sendErrOnly : SendFun := fun _ _ _ _ => ⟨1, none⟩

/-- Engine send oracle reporting success and no replacement (plaintext send). -/
def sendOk : SendFun := fun _ _ _ _ => ⟨0, none⟩

/-- Engine send oracle reporting success with a replacement payload. -/
def sendReplace : SendFun := fun _ _ _ _ => ⟨0, some ['y']⟩

/-- A received message whose command is `"PRIV"` — not `"PRIVMSG"`, but a
strict byte-prefix of it — with exactly two parameters. -/
def msgPriv : GlircMessage :=
  ⟨['N'], ['a'], ['P', 'R', 'I', 'V'], [['b'], ['x']]⟩

/-- A received message with command `"PRIVMSG"` and exactly two parameters. -/
def msgPrivmsg : GlircMessage :=
  ⟨['N'], ['a'], privmsgCmd, [['b'], ['x']]⟩

/-- A received message with command `"NOTICE"` and two parameters. -/
def msgNotice : GlircMessage :=
  ⟨['N'], ['a'], ['N', 'O', 'T', 'I', 'C', 'E'], [['b'], ['x']]⟩

/-- A sample outgoing chat event. -/
def chat0 : GlircChat := ⟨['N'], ['t'], ['m']⟩

/-- A sample local nickname. -/
def me0 : Str := ['u']

/-- A sample extension path handed to `start_entrypoint`. -/
def path0 : Str := ['/', 'e', 'x', 't', '/', 'o', 't', 'r', '.', 's', 'o']

/-- Elementwise description of the scrubbing loop: position `i` of the
scrubbed buffer is a space where the input had a newline and the input byte
otherwise. -/
theorem scrubNewlines_getD (m : Str) (i : Nat) :
    (scrubNewlines m).getD i ' ' =
      if m.getD i ' ' == '\n' then ' ' else m.getD i ' ' := by
  induction m generalizing i with
  | nil => simp [scrubNewlines]
  | cons c cs ih =>
    cases i with
    | zero => simp [scrubNewlines]
    | succ n => simpa [scrubNewlines] using ih n

/-- The scrubbed buffer contains no newline bytes. -/
theorem countNewlines_scrubNewlines (m : Str) :
    countNewlines (scrubNewlines m) = 0 := by
  induction m with
  | nil => rfl
  | cons c cs ih =>
    by_cases h : c = '\n' <;>
      simp_all [scrubNewlines, countNewlines, List.countP_cons]

/-- C9: for every host handle and conversation context, `op_max_message`
returns the fixed value 400, independent of its arguments. -/
theorem max_message_size_is_400 :
    ∀ g : Glirc, ∀ c : ConnContext, op_max_message g c = 400 ∧
      ∀ g2 : Glirc, ∀ c2 : ConnContext, op_max_message g c = op_max_message g2 c2 :=
  fun _ _ => ⟨rfl, fun _ _ => rfl⟩

/-- C5: the text `op_inject` hands to `glirc_send_message` is the input with
every newline replaced by a space and every other byte unchanged; its length
equals the input length and it contains no newline (so the line count cannot
increase), and only the already-scrubbed text ever reaches the transport. -/
theorem inject_scrubs_newlines (accountname protocol recipient message : Str) :
    (op_inject accountname protocol recipient message).events =
      [Event.glirc_send_message protocol privmsgCmd
        [recipient, scrubNewlines message]] ∧
    (scrubNewlines message).length = message.length ∧
    (∀ i : Nat, (scrubNewlines message).getD i ' ' =
      if message.getD i ' ' == '\n' then ' ' else message.getD i ' ') ∧
    countNewlines (scrubNewlines message) = 0 :=
  ⟨rfl, by simp [scrubNewlines], scrubNewlines_getD message,
   countNewlines_scrubNewlines message⟩

/-- C10: `op_inject` performs exactly one host call, a `PRIVMSG` framed on
the network named by the protocol argument with exactly the two parameters
recipient and scrubbed text, and the message buffer of the caller is left
unmodified. -/
theorem inject_privmsg_framing (accountname protocol recipient message : Str) :
    (op_inject accountname protocol recipient message).events =
      [Event.glirc_send_message protocol privmsgCmd
        [recipient, scrubNewlines message]] ∧
    hostSendCount (op_inject accountname protocol recipient message).events = 1 ∧
    [recipient, scrubNewlines message].length = 2 ∧
    (op_inject accountname protocol recipient message).callerBuffer = message :=
  ⟨rfl, rfl, rfl, rfl⟩

/-- C6 counterexample: with the key-file path unwritable (the engine
generation call returns the nonzero code 1), `start_entrypoint` still
returns a usable handle instead of aborting startup. -/
theorem start_unwritable_still_returns_handle :
    (1 : Int) ≠ 0 ∧ (start_entrypoint path0 false 1).handle.isSome = true := by
  decide

/-- C6 (amended): `start_entrypoint` ignores the key-generation result
entirely — for every path, key-file state and generation error code
(including failure on an unwritable path), it returns the user-state handle
and never aborts. -/
theorem start_never_fails (path : Str) (keyExists : Bool) (genResult : Int) :
    (start_entrypoint path keyExists genResult).handle =
      some otrl_userstate_create := rfl

/-- C7 counterexample: even when a key file already exists, `start_entrypoint`
performs a key-generation call and never a key-load call. -/
theorem start_generates_despite_existing_key :
    (start_entrypoint path0 true 0).events.countP isGenerateEvent = 1 ∧
    (start_entrypoint path0 true 0).events.countP isReadEvent = 0 := by
  decide

/-- C7 (amended): for every base path and environment, `start_entrypoint`
runs global engine initialization, creates a user state, and unconditionally
generates a fresh key at `dirname(path) ++ "/keyfile"` under the fixed
account `"glguy"` and protocol `"elis.local"`; it performs exactly one
generation call and no load call, regardless of whether a key already
exists. -/
theorem start_unconditional_generate (path : Str) (keyExists : Bool)
    (genResult : Int) :
    (start_entrypoint path keyExists genResult).events =
      [StartEvent.otrl_init, StartEvent.userstate_create,
       StartEvent.privkey_generate (dirname path ++ keyfileSuffix)
         glguyStr elisStr] ∧
    (start_entrypoint path keyExists genResult).events.countP isGenerateEvent = 1 ∧
    (start_entrypoint path keyExists genResult).events.countP isReadEvent = 0 :=
  ⟨rfl, rfl, rfl⟩

/-- C1 counterexample: the received command `"PRIV"` is not `"PRIVMSG"`, yet
with two parameters the inbound entrypoint makes one engine receive call,
because the `strncmp` guard accepts any byte-prefix of `"PRIVMSG"`. -/
theorem inbound_prefix_command_engine_call :
    msgPriv.command ≠ privmsgCmd ∧ msgPriv.params.length = 2 ∧
    engineRecvCount (message_entrypoint recvNone msgPriv).2 = 1 := by
  decide

/-- C1 (amended): for every received message that fails the guard actually
implemented — command a byte-prefix of `"PRIVMSG"` and exactly two
parameters — the inbound entrypoint returns `PASS_MESSAGE` and makes zero
engine receive calls (indeed, performs no effect at all). -/
theorem inbound_nonmatching_passthrough (recv : RecvFun) (msg : GlircMessage)
    (h : privmsgGuard msg = false) :
    (message_entrypoint recv msg).1 = ProcessResult.PASS_MESSAGE ∧
    engineRecvCount (message_entrypoint recv msg).2 = 0 := by
  simp [message_entrypoint, h, engineRecvCount]

/-- Witness for `inbound_nonmatching_passthrough` at a `"NOTICE"` message. -/
theorem inbound_nonmatching_passthrough_witness :
    (message_entrypoint recvNone msgNotice).1 = ProcessResult.PASS_MESSAGE ∧
    engineRecvCount (message_entrypoint recvNone msgNotice).2 = 0 :=
  inbound_nonmatching_passthrough recvNone msgNotice (by decide)

/-- C3: on a message passing the guard, the inbound result follows the engine
receive output: produced plaintext is injected as a chat line attributed to
the original sender and the raw line is dropped; no plaintext with a nonzero
drop flag gives a drop with no substitute display; otherwise the raw line is
passed through. -/
theorem inbound_matching_decision (recv : RecvFun) (msg : GlircMessage)
    (h : privmsgGuard msg = true) :
    (∀ p, (recvOutput recv msg).newmessage = some p →
        (message_entrypoint recv msg).1 = ProcessResult.DROP_MESSAGE ∧
        Event.glirc_inject_chat msg.network msg.prefix_nick msg.prefix_nick p
          ∈ (message_entrypoint recv msg).2) ∧
    ((recvOutput recv msg).newmessage = none →
      (recvOutput recv msg).drop ≠ 0 →
        (message_entrypoint recv msg).1 = ProcessResult.DROP_MESSAGE ∧
        injectChatCount (message_entrypoint recv msg).2 = 0) ∧
    ((recvOutput recv msg).newmessage = none →
      (recvOutput recv msg).drop = 0 →
        (message_entrypoint recv msg).1 = ProcessResult.PASS_MESSAGE ∧
        injectChatCount (message_entrypoint recv msg).2 = 0) := by
  refine ⟨?_, ?_, ?_⟩
  · intro p hp
    simp [message_entrypoint, h, hp, injectChatCount, isInjectChatEvent]
  · intro hn hd
    simp [message_entrypoint, h, hn, hd, injectChatCount, isInjectChatEvent,
          List.countP_append, List.countP_cons]
  · intro hn hd
    simp [message_entrypoint, h, hn, hd, injectChatCount, isInjectChatEvent,
          List.countP_append, List.countP_cons]

/-- Witness for `inbound_matching_decision` at a decrypting engine output. -/
theorem inbound_matching_decision_witness :
    (message_entrypoint recvPlain msgPrivmsg).1 = ProcessResult.DROP_MESSAGE ∧
    Event.glirc_inject_chat msgPrivmsg.network msgPrivmsg.prefix_nick
        msgPrivmsg.prefix_nick ['h', 'i']
      ∈ (message_entrypoint recvPlain msgPrivmsg).2 :=
  (inbound_matching_decision recvPlain msgPrivmsg (by decide)).1 ['h', 'i'] rfl

/-- C2 counterexample: an engine send output with error code 1 and a
replacement payload makes the outbound entrypoint return before the error
check — the result is a drop but zero encryption-error notifications are
surfaced, not exactly one. -/
theorem outbound_error_with_replacement_no_notification :
    (sendOutput sendErrReplace me0 chat0).err = 1 ∧
    errNotifCount (chat_entrypoint sendErrReplace me0 chat0).2 = 0 ∧
    (chat_entrypoint sendErrReplace me0 chat0).1 = ProcessResult.DROP_MESSAGE := by
  decide

/-- C2 (amended): whenever the engine send path reports a nonzero error code
the outbound result is `DROP_MESSAGE`, never `PASS_MESSAGE`; exactly one
encryption-error notification is surfaced when the engine returned no
replacement payload, and none when it did (the replacement branch returns
first). -/
theorem outbound_error_drops (send : SendFun) (me : Str) (chat : GlircChat)
    (h : (sendOutput send me chat).err ≠ 0) :
    (chat_entrypoint send me chat).1 = ProcessResult.DROP_MESSAGE ∧
    ((sendOutput send me chat).newmsg = none →
       errNotifCount (chat_entrypoint send me chat).2 = 1) ∧
    (∀ p, (sendOutput send me chat).newmsg = some p →
       errNotifCount (chat_entrypoint send me chat).2 = 0) := by
  refine ⟨?_, ?_, ?_⟩
  · rcases hnm : (sendOutput send me chat).newmsg with _ | p <;>
      simp [chat_entrypoint, hnm, h]
  · intro hn
    simp [chat_entrypoint, hn, h, errNotifCount, isErrNotifEvent,
          List.countP_append, List.countP_cons]
  · intro p hp
    simp [chat_entrypoint, hp, errNotifCount, isErrNotifEvent,
          List.countP_append, List.countP_cons]

/-- Witness for `outbound_error_drops` at an error-only engine output. -/
theorem outbound_error_drops_witness :
    (chat_entrypoint sendErrOnly me0 chat0).1 = ProcessResult.DROP_MESSAGE ∧
    errNotifCount (chat_entrypoint sendErrOnly me0 chat0).2 = 1 :=
  ⟨(outbound_error_drops sendErrOnly me0 chat0 (by decide)).1,
   (outbound_error_drops sendErrOnly me0 chat0 (by decide)).2.1 rfl⟩

/-- C4: a replacement payload from the engine send path makes the outbound
entrypoint suppress the original send (`DROP_MESSAGE`); no replacement and a
zero error code gives `PASS_MESSAGE` with the message untouched — no host
send, no injected chat line, no notification. -/
theorem outbound_replacement_drop_else_passthrough (send : SendFun)
    (me : Str) (chat : GlircChat) :
    (∀ p, (sendOutput send me chat).newmsg = some p →
       (chat_entrypoint send me chat).1 = ProcessResult.DROP_MESSAGE) ∧
    ((sendOutput send me chat).newmsg = none →
     (sendOutput send me chat).err = 0 →
       (chat_entrypoint send me chat).1 = ProcessResult.PASS_MESSAGE ∧
       hostSendCount (chat_entrypoint send me chat).2 = 0 ∧
       injectChatCount (chat_entrypoint send me chat).2 = 0 ∧
       printCount (chat_entrypoint send me chat).2 = 0) := by
  refine ⟨?_, ?_⟩
  · intro p hp
    simp [chat_entrypoint, hp]
  · intro hn he
    simp [chat_entrypoint, hn, he, hostSendCount, isHostSendEvent,
          injectChatCount, isInjectChatEvent, printCount, isPrintEvent,
          List.countP_append, List.countP_cons]

/-- Witness for `outbound_replacement_drop_else_passthrough` at a replacing
and at a plaintext engine output. -/
theorem outbound_replacement_drop_else_passthrough_witness :
    (chat_entrypoint sendReplace me0 chat0).1 = ProcessResult.DROP_MESSAGE ∧
    (chat_entrypoint sendOk me0 chat0).1 = ProcessResult.PASS_MESSAGE :=
  ⟨(outbound_replacement_drop_else_passthrough sendReplace me0 chat0).1 ['y'] rfl,
   ((outbound_replacement_drop_else_passthrough sendOk me0 chat0).2 rfl rfl).1⟩

/-- Per-call resource balance for the inbound entrypoint: for every buffer
kind, allocations and releases in one trace agree in number. -/
theorem message_entrypoint_balanced (recv : RecvFun) (msg : GlircMessage)
    (k : BufKind) :
    allocCount (message_entrypoint recv msg).2 k =
      freeCount (message_entrypoint recv msg).2 k := by
  by_cases h : privmsgGuard msg
  · rcases hnm : (recvOutput recv msg).newmessage with _ | p <;>
      rcases htl : (recvOutput recv msg).tlvs with _ | _ <;>
      cases k <;>
      simp [message_entrypoint, h, hnm, htl, allocCount, freeCount,
            isAllocOf, isFreeOf, List.countP_append, List.countP_cons]
  · simp [message_entrypoint, h, allocCount, freeCount]

/-- C8: every buffer the inbound entrypoint acquires — the four decoded
string copies and any engine-allocated plaintext or TLV chain — is released
exactly once on every exit path, and processing any sequence of inbound
messages leaves allocations and releases balanced for every buffer kind. -/
theorem inbound_resource_balance :
    (∀ recv : RecvFun, ∀ msg : GlircMessage, ∀ k : BufKind,
        allocCount (message_entrypoint recv msg).2 k =
          freeCount (message_entrypoint recv msg).2 k) ∧
    (∀ inputs : List (RecvFun × GlircMessage), ∀ k : BufKind,
        allocCount (processInbound inputs) k =
          freeCount (processInbound inputs) k) := by
  refine ⟨message_entrypoint_balanced, ?_⟩
  intro inputs k
  induction inputs with
  | nil => rfl
  | cons i rest ih =>
    have hb := message_entrypoint_balanced i.1 i.2 k
    simp only [processInbound, List.foldr_cons] at ih ⊢
    simp only [allocCount, freeCount, List.countP_append] at ih hb ⊢
    omega
